import Mathlib

/-!
Shallow embedding of the Verlet-canvas physics core (`src` of the repository
`cubedhuang/verlet-canvas`).  Numbers are modelled by real numbers; the
Euclidean norm `Math.hypot` becomes `Real.sqrt`.  Objects live in an ordered
store (a `List`), and a `Link` holds the indices of its two endpoints, which
mirrors the reference semantics of the source: every read of a field happens
from the current store at the moment the source reads it.
-/

namespace Verlet

/-- The 2D vector type, mirroring the source's `type Vec2 = [number, number]`. -/
abbrev Vec2 : Type := ℝ × ℝ

/-- Source `Vec2.add`. -/
def Vec2.add (a b : Vec2) : Vec2 := (a.1 + b.1, a.2 + b.2)

/-- Source `Vec2.sub`. -/
def Vec2.sub (a b : Vec2) : Vec2 := (a.1 - b.1, a.2 - b.2)

/-- Source `Vec2.scale`. -/
def Vec2.scale (a : Vec2) (s : ℝ) : Vec2 := (a.1 * s, a.2 * s)

/-- Source `Vec2.length`: `Math.hypot(a[0], a[1])`. -/
noncomputable def Vec2.length (a : Vec2) : ℝ := Real.sqrt (a.1 * a.1 + a.2 * a.2)

/-- A particle.  `SimObject` (free) and `FrozenSimObject` (anchored) are merged
into one record distinguished by the `frozen` flag, as the source does via a
class hierarchy; `originalPosition` is only meaningful when `frozen = true`
(the `FrozenSimObject` subclass field).  The field name `accleration` keeps the
source's spelling. -/
structure Obj where
  frozen : Bool
  position : Vec2
  oldPosition : Vec2
  accleration : Vec2
  radius : ℝ
  mass : ℝ
  originalPosition : Vec2

/-- The `SimObject` constructor: `oldPosition = position`, zero acceleration.
(`originalPosition` is unused for free objects; we store the position.) -/
def mkObj (position : Vec2) (radius mass : ℝ) : Obj :=
  ⟨false, position, position, (0, 0), radius, mass, position⟩

/-- Constructor call `new SimObject(p, r)` with the defaulted `mass = radius * radius`. -/
def mkObjR (position : Vec2) (radius : ℝ) : Obj :=
  mkObj position radius (radius * radius)

/-- The `FrozenSimObject` constructor: additionally `originalPosition = position`. -/
def mkFrozen (position : Vec2) (radius mass : ℝ) : Obj :=
  ⟨true, position, position, (0, 0), radius, mass, position⟩

/-- Source `SimObject.updatePosition(dt)` / `FrozenSimObject.updatePosition()`:
the free variant performs the Verlet step and clears the acceleration, the
frozen variant resets `position` and `oldPosition` to `originalPosition`
(and does not touch the acceleration). -/
def updatePosition (dt : ℝ) (o : Obj) : Obj :=
  if o.frozen then
    { o with position := o.originalPosition, oldPosition := o.originalPosition }
  else
    { o with
      oldPosition := o.position
      position := Vec2.add (Vec2.add o.position (Vec2.sub o.position o.oldPosition))
        (Vec2.scale o.accleration (dt * dt))
      accleration := (0, 0) }

/-- Source `SimObject.accelerate(a)`. -/
def accelerate (a : Vec2) (o : Obj) : Obj :=
  { o with accleration := Vec2.add o.accleration a }

/-- A `Link`: endpoint references become stable indices into the object store,
plus the `target` rest length. -/
structure Link where
  a : Nat
  b : Nat
  target : ℝ

/-- Source `Link.apply()`.  Reads both endpoints from the store, computes the axis,
distance, normal and delta exactly as the source lines 89–94, then branches on
the frozen flags.  In the both-free branch the source writes `a.position`
first and then reads `b.position` again (line 108), so the second write is a
`modify` of the current store, which also reproduces the aliasing behaviour
when both indices coincide.  Out-of-range indices (which the scenarios never
produce) leave the store unchanged. -/
noncomputable def linkApply (objs : List Obj) (lk : Link) : List Obj :=
  match objs[lk.a]?, objs[lk.b]? with
  | some a, some b =>
    let axis := Vec2.sub b.position a.position
    let dist := Vec2.length axis
    let normal := Vec2.scale axis (1 / dist)
    let delta := Vec2.scale normal (dist - lk.target)
    if a.frozen then
      objs.set lk.b { b with position := Vec2.sub b.position delta }
    else if b.frozen then
      objs.set lk.a { a with position := Vec2.add a.position delta }
    else
      let deltaA := Vec2.scale delta (a.mass / (a.mass + b.mass))
      let deltaB := Vec2.sub delta deltaA
      let objs1 := objs.set lk.a { a with position := Vec2.add a.position deltaB }
      objs1.modify (fun b1 => { b1 with position := Vec2.sub b1.position deltaA }) lk.b
  | _, _ => objs

/-- The local `delta` of `Link.apply` (source lines 90–94) as a function of
the two endpoint positions: `normal * (dist - target)` with
`normal = axis / dist`, `axis = pb - pa`, `dist = |axis|`. -/
noncomputable def linkDelta (pa pb : Vec2) (target : ℝ) : Vec2 :=
  Vec2.scale (Vec2.scale (Vec2.sub pb pa) (1 / Vec2.length (Vec2.sub pb pa)))
    (Vec2.length (Vec2.sub pb pa) - target)

/-- The body of the inner loop of `Simulation.solveCollisions` for the pair of
indices `(i, j)` (source lines 273–301): re-read both objects, skip when the
distance is exactly zero, otherwise push the pair apart exactly as
`Link.apply`'s branches do, with target separation the sum of the radii. -/
noncomputable def collidePair (objs : List Obj) (i j : Nat) : List Obj :=
  match objs[i]?, objs[j]? with
  | some a, some b =>
    let axis := Vec2.sub a.position b.position
    let distance := Vec2.length axis
    if distance = 0 then objs
    else
      let minDistance := a.radius + b.radius
      if distance < minDistance then
        let normal := Vec2.scale axis (1 / distance)
        let delta := Vec2.scale normal (minDistance - distance)
        if a.frozen then
          objs.set j { b with position := Vec2.sub b.position delta }
        else if b.frozen then
          objs.set i { a with position := Vec2.add a.position delta }
        else
          let deltaA := Vec2.scale delta (a.mass / (a.mass + b.mass))
          let deltaB := Vec2.sub delta deltaA
          let objs1 := objs.set i { a with position := Vec2.add a.position deltaB }
          objs1.modify (fun b1 => { b1 with position := Vec2.sub b1.position deltaA }) j
      else objs
  | _, _ => objs

/-- Source `Simulation.solveCollisions`: the all-pairs `i < j` double loop.  The
object count is invariant under `collidePair`, so iterating over the ranges of
the initial length is the loop the source runs. -/
noncomputable def solveCollisions (objs : List Obj) : List Obj :=
  (List.range objs.length).foldl
    (fun acc i => ((List.range objs.length).drop (i + 1)).foldl
      (fun acc2 j => collidePair acc2 i j) acc)
    objs

/-- The clamp loop of `Simulation.applyConstraint`, given the already-read
canvas midpoint as `center`: clamp every object into the circle of radius
`250 - obj.radius` around it.  The `this.canvas.width` dereference that
precedes the loop in the source — and throws when no canvas is attached — is
`applyConstraintE` below. -/
noncomputable def applyConstraint (center : Vec2) (objs : List Obj) : List Obj :=
  objs.map fun obj =>
    let distance := Vec2.length (Vec2.sub obj.position center)
    if distance > 250 - obj.radius then
      let direction := Vec2.sub obj.position center
      let normal := Vec2.scale direction (1 / distance)
      { obj with position := Vec2.add center (Vec2.scale normal (250 - obj.radius)) }
    else obj

/-- Source `Simulation.applyGravity`. -/
def applyGravity (gravity : Vec2) (objs : List Obj) : List Obj :=
  objs.map (accelerate gravity)

/-- Source `Simulation.applyLinks`: apply every link in list order. -/
noncomputable def applyLinks (links : List Link) (objs : List Obj) : List Obj :=
  links.foldl linkApply objs

/-- Source `Simulation.updatePositions`. -/
def updatePositions (dt : ℝ) (objs : List Obj) : List Obj :=
  objs.map (updatePosition dt)

/-- The scenario tag `SimType`. -/
inductive SimType where
  | DoublePendulums
  | LongPendulum
  | BoundedObjects
deriving DecidableEq

/-- The mutable state of a `Simulation`.  `hasCtx` records whether a drawing
surface was ever attached (`canvas`/`ctx` are definitely-assigned in the
source and stay undefined until `start` receives a canvas); `prevT` is the
`private t?: number` timestamp; the scheduler handle `id` is external and
carries no simulation state. -/
structure SimState where
  simType : SimType
  hasCtx : Bool
  canvasWidth : ℝ
  canvasHeight : ℝ
  playing : Bool
  prevT : Option ℝ
  bounded : Bool
  collisions : Bool
  objects : List Obj
  links : List Link
  gravity : Vec2

/-- The first line of `Simulation.applyConstraint` (source line 253) reads
`this.canvas.width` and `this.canvas.height`: a thrown `TypeError` when no
canvas was ever attached (`hasCtx = false`), before any object is touched;
otherwise the clamp loop `applyConstraint` runs with the canvas midpoint. -/
noncomputable def applyConstraintE (hasCtx : Bool) (canvasWidth canvasHeight : ℝ)
    (objs : List Obj) : Except Unit (List Obj) :=
  if hasCtx then
    .ok (applyConstraint (canvasWidth / 2, canvasHeight / 2) objs)
  else
    .error ()

/-- Source `Simulation.update(dt)` as it executes when the containment phase's
canvas dereference succeeds (a canvas is attached, or `bounded` is off so the
phase is skipped): the fixed per-substep order — gravity, containment (if
`bounded`), collisions (if `collisions`), links, integration.  `updateE` below
is the same call including the failure path. -/
noncomputable def update (dt : ℝ) (s : SimState) : SimState :=
  let o1 := applyGravity s.gravity s.objects
  let o2 := if s.bounded then
      applyConstraint (s.canvasWidth / 2, s.canvasHeight / 2) o1
    else o1
  let o3 := if s.collisions then solveCollisions o2 else o2
  let o4 := applyLinks s.links o3
  { s with objects := updatePositions dt o4 }

/-- Source `Simulation.update(dt)` with the failure path: when `bounded` and no
canvas is attached, `applyConstraint` throws at `this.canvas.width` — after
gravity has already mutated every object's acceleration, and before collisions,
links or integration run.  `.error` carries the state as mutated at the throw. -/
noncomputable def updateE (dt : ℝ) (s : SimState) : Except SimState SimState :=
  let o1 := applyGravity s.gravity s.objects
  match (if s.bounded then
      applyConstraintE s.hasCtx s.canvasWidth s.canvasHeight o1
    else .ok o1) with
  | .error _ => .error { s with objects := o1 }
  | .ok o2 =>
    let o3 := if s.collisions then solveCollisions o2 else o2
    let o4 := applyLinks s.links o3
    .ok { s with objects := updatePositions dt o4 }

/-- JavaScript truncation toward zero, as used by the `%` operator. -/
noncomputable def jsTrunc (x : ℝ) : ℤ :=
  if 0 ≤ x then ⌊x⌋ else -⌊-x⌋

/-- The JavaScript remainder `a % b` on numbers (`b ≠ 0`; the source only uses
`t % 500`). -/
noncomputable def jsMod (a b : ℝ) : ℝ :=
  a - b * (jsTrunc (a / b) : ℝ)

/-- Truthiness of `this.t || t`: JavaScript `||` yields the right operand when the left is
`undefined` (never assigned) or the falsy number `0`. -/
noncomputable def jsOr (prevT : Option ℝ) (t : ℝ) : ℝ :=
  match prevT with
  | some p => if p = 0 then t else p
  | none => t

/-- Source line `const dt = (t - (this.t || t)) / 1000` of `Simulation.step`. -/
noncomputable def dtWall (prevT : Option ℝ) (t : ℝ) : ℝ :=
  (t - jsOr prevT t) / 1000

/-- Source line `const substeps = 1000` in `Simulation.step`. -/
def substeps : Nat := 1000

/-- Outcome of one `step` call: `crashed` marks the tick aborting with a
thrown `TypeError` — either inside an `update` (the `applyConstraint` canvas
dereference) or in `draw` (the missing 2d context) — carrying the state as
mutated up to that point. -/
inductive StepResult where
  | ok (s : SimState)
  | crashed (s : SimState)

/-- The state a tick left behind, whether or not it completed. -/
def StepResult.state : StepResult → SimState
  | .ok s => s
  | .crashed s => s

/-- The state an `Except`-valued phase left behind, thrown or not. -/
def exceptState : Except SimState SimState → SimState
  | .ok s => s
  | .error s => s

/-- The substep loop of `Simulation.step` (source lines 212–214): run
`updateE dt` up to `n` times, aborting the loop the moment an update throws. -/
noncomputable def runSubsteps (dt : ℝ) : Nat → SimState → Except SimState SimState
  | 0, s => .ok s
  | n + 1, s =>
    match updateE dt s with
    | .ok s' => runSubsteps dt n s'
    | .error s' => .error s'

/-- Source `Simulation.step(t)`.  Here `spawnRadius` stands for the sampled
`Math.random() * 20 + 10` of the spawn line.  In source order: compute `dt`
and store `t`; run `update(subDt)` `substeps` times with
`subDt = min(dt, 1/50) / substeps` — a loop that aborts with a thrown
`TypeError` if an update's containment phase dereferences a missing canvas;
then `draw()` — which itself throws if no drawing surface was ever attached,
aborting the tick with all substep mutations applied; otherwise schedule the
next frame (external) and, in the bounded-objects scenario, append one object
of radius `spawnRadius` when `t % 500 < dt * 1000` and fewer than 100 objects
exist.

`spawnCheck` is that final spawn block (source lines 230–235). -/
noncomputable def spawnCheck (t dt spawnRadius : ℝ) (s : SimState) : SimState :=
  if s.simType = SimType.BoundedObjects ∧ jsMod t 500 < dt * 1000 ∧
      s.objects.length < 100 then
    { s with objects := s.objects ++ [mkObjR (350, 100) spawnRadius] }
  else
    s

/-- Source `Simulation.step(t)` itself: timestamp bookkeeping, the 1000-substep
loop (which may abort mid-update on the canvas dereference), the draw (which
crashes without a context), then `spawnCheck`. -/
noncomputable def step (t spawnRadius : ℝ) (s : SimState) : StepResult :=
  let dt := dtWall s.prevT t
  let s1 := { s with prevT := some t }
  let subDt := min dt (1 / 50) / (substeps : ℝ)
  match runSubsteps subDt substeps s1 with
  | .error s2 => .crashed s2
  | .ok s2 =>
    if s2.hasCtx then
      .ok (spawnCheck t dt spawnRadius s2)
    else
      .crashed s2

/-- The drawing surface, reduced to what the simulation reads from it. -/
structure Canvas where
  width : ℝ
  height : ℝ

/-- Source `Simulation.start(canvas?)`: optionally attach the drawing surface, set
`playing`, and run the first tick with the sentinel timestamp `0`.  There is
no guard: with no surface attached now or previously the tick still runs. -/
noncomputable def start (canvas : Option Canvas) (spawnRadius : ℝ)
    (s : SimState) : StepResult :=
  let s1 := match canvas with
    | some c =>
      { s with hasCtx := true, canvasWidth := c.width, canvasHeight := c.height }
    | none => s
  step 0 spawnRadius { s1 with playing := true }

/-- The `Simulation` constructor for `SimType.BoundedObjects`: starts with no
objects or links, `bounded` and `collisions` on.  (`canvas` is unattached, so
the dimension fields are meaningless placeholders until `start`.) -/
def mkBoundedObjects : SimState :=
  { simType := .BoundedObjects, hasCtx := false, canvasWidth := 0,
    canvasHeight := 0, playing := false, prevT := none, bounded := true,
    collisions := true, objects := [], links := [], gravity := (0, 1000) }

/-! ### IEEE-flavoured model for the zero-distance hazard (claim C4)

The real-number model above cannot express the non-finite doubles JavaScript
produces on `1/0`; for the hazard claim we re-express `Link.apply` over
numbers extended with a non-finite absorbing point: `some x` is the finite
double `x` (finite arithmetic taken exact), `none` collapses `NaN` and
`±Infinity`.  Every arithmetic operation with a non-finite operand is
non-finite, and a finite division by zero is non-finite — exactly the
propagation the claim is about. -/

/-- A JavaScript number: finite (`some`) or non-finite (`none`). -/
abbrev JSNum : Type := Option ℝ

/-- Addition on JS numbers. -/
def jsAdd : JSNum → JSNum → JSNum
  | some x, some y => some (x + y)
  | _, _ => none

/-- Subtraction on JS numbers. -/
def jsSub : JSNum → JSNum → JSNum
  | some x, some y => some (x - y)
  | _, _ => none

/-- Multiplication on JS numbers (`Infinity * 0 = NaN`, so any non-finite
operand yields a non-finite result). -/
def jsMul : JSNum → JSNum → JSNum
  | some x, some y => some (x * y)
  | _, _ => none

/-- Division on JS numbers: a finite numerator over `0` is `±Infinity` (or
`NaN` for `0/0`) — non-finite either way. -/
noncomputable def jsDiv : JSNum → JSNum → JSNum
  | some x, some y => if y = 0 then none else some (x / y)
  | _, _ => none

/-- A 2D vector of JS numbers. -/
abbrev JSVec2 : Type := JSNum × JSNum

/-- Source `Vec2.add` over JS numbers. -/
def jsVadd (a b : JSVec2) : JSVec2 := (jsAdd a.1 b.1, jsAdd a.2 b.2)

/-- Source `Vec2.sub` over JS numbers. -/
def jsVsub (a b : JSVec2) : JSVec2 := (jsSub a.1 b.1, jsSub a.2 b.2)

/-- Source `Vec2.scale` over JS numbers. -/
def jsVscale (a : JSVec2) (s : JSNum) : JSVec2 := (jsMul a.1 s, jsMul a.2 s)

/-- Source `Vec2.length` (`Math.hypot`) over JS numbers. -/
noncomputable def jsVlength (a : JSVec2) : JSNum :=
  match a with
  | (some x, some y) => some (Real.sqrt (x * x + y * y))
  | _ => none

/-- A link endpoint as `Link.apply` reads it, over JS numbers. -/
structure JSObj where
  frozen : Bool
  position : JSVec2
  mass : JSNum

/-- Source `Link.apply()` over JS numbers, on two distinct endpoint objects;
returns the two new positions. -/
noncomputable def jsLinkApply (a b : JSObj) (target : ℝ) : JSVec2 × JSVec2 :=
  let axis := jsVsub b.position a.position
  let dist := jsVlength axis
  let normal := jsVscale axis (jsDiv (some 1) dist)
  let delta := jsVscale normal (jsSub dist (some target))
  if a.frozen then
    (a.position, jsVsub b.position delta)
  else if b.frozen then
    (jsVadd a.position delta, b.position)
  else
    let deltaA := jsVscale delta (jsDiv a.mass (jsAdd a.mass b.mass))
    let deltaB := jsVsub delta deltaA
    (jsVadd a.position deltaB, jsVsub b.position deltaA)

/-! ### Preservation infrastructure

The constraint phases only ever rewrite `position`, `oldPosition` or
`accleration`; the frozen flag and the anchor (`originalPosition`) of every
stored object ride along untouched.  `SameKind` captures that relation and
`KindPreserving` lifts it to store transformers. -/

/-- Two objects with the same frozen flag and the same anchor position. -/
def SameKind (o o' : Obj) : Prop :=
  o'.frozen = o.frozen ∧ o'.originalPosition = o.originalPosition

/-- A store transformer that keeps every index populated with a `SameKind`
object. -/
def KindPreserving (f : List Obj → List Obj) : Prop :=
  ∀ (objs : List Obj) (k : Nat) (o : Obj), objs[k]? = some o →
    ∃ o', (f objs)[k]? = some o' ∧ SameKind o o'

/-! ### Vector norm lemmas -/

theorem Vec2.length_nonneg (v : Vec2) : 0 ≤ v.length :=
  Real.sqrt_nonneg _

theorem Vec2.length_eq_zero_iff (v : Vec2) : v.length = 0 ↔ v = (0, 0) := by
  unfold Vec2.length
  constructor
  · intro h
    have hle : v.1 * v.1 + v.2 * v.2 ≤ 0 := Real.sqrt_eq_zero'.mp h
    have h1 : v.1 = 0 := by nlinarith [sq_nonneg v.1, sq_nonneg v.2]
    have h2 : v.2 = 0 := by nlinarith [sq_nonneg v.1, sq_nonneg v.2]
    exact Prod.ext h1 h2
  · intro h
    rw [h]
    norm_num

theorem Vec2.length_scale (v : Vec2) (s : ℝ) :
    (Vec2.scale v s).length = |s| * v.length := by
  unfold Vec2.length Vec2.scale
  rw [show v.1 * s * (v.1 * s) + v.2 * s * (v.2 * s)
      = s ^ 2 * (v.1 * v.1 + v.2 * v.2) by ring,
    Real.sqrt_mul (sq_nonneg s), Real.sqrt_sq_eq_abs]

theorem Vec2.length_pos_of_ne (v : Vec2) (h : v ≠ (0, 0)) : 0 < v.length :=
  lt_of_le_of_ne (Vec2.length_nonneg v)
    (fun h0 => h ((Vec2.length_eq_zero_iff v).mp h0.symm))

theorem Vec2.length_normalize (v : Vec2) (h : v ≠ (0, 0)) :
    (Vec2.scale v (1 / v.length)).length = 1 := by
  have hpos := Vec2.length_pos_of_ne v h
  rw [Vec2.length_scale, abs_of_pos (by positivity)]
  field_simp

theorem Vec2.sub_self (v : Vec2) : Vec2.sub v v = (0, 0) := by
  simp [Vec2.sub]

/-- Claim C6: a free particle's `updatePosition(dt)` performs the Verlet step
`position + (position - oldPosition) + accleration * dt²`, saves the
pre-update position into `oldPosition`, and clears the acceleration. -/
theorem free_updatePosition (dt : ℝ) (o : Obj) (h : o.frozen = false) :
    (updatePosition dt o).position
        = (o.position.1 + (o.position.1 - o.oldPosition.1) + o.accleration.1 * dt ^ 2,
           o.position.2 + (o.position.2 - o.oldPosition.2) + o.accleration.2 * dt ^ 2)
      ∧ (updatePosition dt o).oldPosition = o.position
      ∧ (updatePosition dt o).accleration = (0, 0)
      ∧ (updatePosition dt o).frozen = o.frozen
      ∧ (updatePosition dt o).radius = o.radius
      ∧ (updatePosition dt o).mass = o.mass := by
  refine ⟨?_, ?_, ?_, ?_, ?_, ?_⟩ <;>
    simp [updatePosition, h, Vec2.add, Vec2.sub, Vec2.scale, Prod.ext_iff, sq]

/-- Witness for C6 at a concrete particle. -/
theorem free_updatePosition_witness :
    (mkObj (1, 2) 10 100).frozen = false ∧
      ((updatePosition 3 (mkObj (1, 2) 10 100)).position
          = ((mkObj (1, 2) 10 100).position.1
              + ((mkObj (1, 2) 10 100).position.1 - (mkObj (1, 2) 10 100).oldPosition.1)
              + (mkObj (1, 2) 10 100).accleration.1 * 3 ^ 2,
             (mkObj (1, 2) 10 100).position.2
              + ((mkObj (1, 2) 10 100).position.2 - (mkObj (1, 2) 10 100).oldPosition.2)
              + (mkObj (1, 2) 10 100).accleration.2 * 3 ^ 2)
        ∧ (updatePosition 3 (mkObj (1, 2) 10 100)).oldPosition = (mkObj (1, 2) 10 100).position
        ∧ (updatePosition 3 (mkObj (1, 2) 10 100)).accleration = (0, 0)
        ∧ (updatePosition 3 (mkObj (1, 2) 10 100)).frozen = (mkObj (1, 2) 10 100).frozen
        ∧ (updatePosition 3 (mkObj (1, 2) 10 100)).radius = (mkObj (1, 2) 10 100).radius
        ∧ (updatePosition 3 (mkObj (1, 2) 10 100)).mass = (mkObj (1, 2) 10 100).mass) :=
  ⟨rfl, free_updatePosition 3 (mkObj (1, 2) 10 100) rfl⟩

/-! ### Pointwise vector identities -/

theorem Vec2.sub_eq_zero_iff (x y : Vec2) : Vec2.sub x y = (0, 0) ↔ x = y := by
  simp [Vec2.sub, Prod.ext_iff, sub_eq_zero]

theorem Vec2.sub_add_cancel (x y : Vec2) : Vec2.sub (Vec2.add x y) x = y := by
  simp [Vec2.sub, Vec2.add]

theorem Vec2.sub_sub_cancel (x y : Vec2) :
    Vec2.sub (Vec2.sub x y) x = Vec2.scale y (-1) := by
  simp only [Vec2.sub, Vec2.scale, Prod.mk.injEq]
  constructor <;> ring

theorem Vec2.sub_scale_self (v : Vec2) (c : ℝ) :
    Vec2.sub v (Vec2.scale v c) = Vec2.scale v (1 - c) := by
  simp only [Vec2.sub, Vec2.scale, Prod.mk.injEq]
  constructor <;> ring

theorem linkDelta_length (pa pb : Vec2) (t : ℝ) (h : pa ≠ pb) :
    Vec2.length (linkDelta pa pb t) = |Vec2.length (Vec2.sub pb pa) - t| := by
  have haxis : Vec2.sub pb pa ≠ (0, 0) := by
    intro h0
    exact h ((Vec2.sub_eq_zero_iff pb pa).mp h0).symm
  rw [linkDelta, Vec2.length_scale, Vec2.length_normalize _ haxis, mul_one]

/-- Evaluation of `Link.apply` on a two-object store when both endpoints are
free: the branch of source lines 100–109. -/
theorem linkApply_pair_free (a b : Obj) (t : ℝ)
    (ha : a.frozen = false) (hb : b.frozen = false) :
    linkApply [a, b] ⟨0, 1, t⟩ =
      [{ a with position := (Vec2.add a.position
          (Vec2.sub (linkDelta a.position b.position t)
            (Vec2.scale (linkDelta a.position b.position t)
              (a.mass / (a.mass + b.mass))))) },
       { b with position := (Vec2.sub b.position
          (Vec2.scale (linkDelta a.position b.position t)
            (a.mass / (a.mass + b.mass)))) }] := by
  simp [linkApply, linkDelta, ha, hb, List.set]

/-- Evaluation of `Link.apply` on a two-object store when the first endpoint
is frozen: the branch of source lines 96–97, taken regardless of `b.frozen`. -/
theorem linkApply_pair_afrozen (a b : Obj) (t : ℝ) (ha : a.frozen = true) :
    linkApply [a, b] ⟨0, 1, t⟩ =
      [a, { b with position := (Vec2.sub b.position (linkDelta a.position b.position t)) }] := by
  simp [linkApply, linkDelta, ha, List.set]

/-- Claim C1 (amended): for a link with two free endpoints, one `apply()`
call adds `delta * massB/(massA+massB)` to `A.position` and subtracts
`delta * massA/(massA+massB)` from `B.position` (the labels `massA`/`massB`
are the other way round from the spec formula), so the heavier endpoint
moves less. -/
theorem linkApply_free_mass_split (a b : Obj) (t : ℝ)
    (ha : a.frozen = false) (hb : b.frozen = false)
    (hma : 0 < a.mass) (hmb : 0 < b.mass) :
    linkApply [a, b] ⟨0, 1, t⟩ =
      [{ a with position := (Vec2.add a.position
          (Vec2.scale (linkDelta a.position b.position t)
            (b.mass / (a.mass + b.mass)))) },
       { b with position := (Vec2.sub b.position
          (Vec2.scale (linkDelta a.position b.position t)
            (a.mass / (a.mass + b.mass)))) }]
    ∧ (b.mass ≤ a.mass →
        Vec2.length (Vec2.scale (linkDelta a.position b.position t)
            (b.mass / (a.mass + b.mass)))
          ≤ Vec2.length (Vec2.scale (linkDelta a.position b.position t)
            (a.mass / (a.mass + b.mass)))) := by
  have hM : a.mass + b.mass ≠ 0 := by positivity
  constructor
  · rw [linkApply_pair_free a b t ha hb]
    have hδ : Vec2.sub (linkDelta a.position b.position t)
        (Vec2.scale (linkDelta a.position b.position t) (a.mass / (a.mass + b.mass)))
        = Vec2.scale (linkDelta a.position b.position t) (b.mass / (a.mass + b.mass)) := by
      rw [Vec2.sub_scale_self]
      congr 1
      field_simp
    rw [hδ]
  · intro hba
    rw [Vec2.length_scale, Vec2.length_scale,
      abs_of_pos (show (0 : ℝ) < b.mass / (a.mass + b.mass) by positivity),
      abs_of_pos (show (0 : ℝ) < a.mass / (a.mass + b.mass) by positivity)]
    have hdiv : b.mass / (a.mass + b.mass) ≤ a.mass / (a.mass + b.mass) := by
      gcongr
    exact mul_le_mul_of_nonneg_right hdiv (Vec2.length_nonneg _)

/-- Counterexample to claim C1 as stated: endpoints at `(0,0)` and `(5,0)`
with masses 3 and 1 and target length 1 give `delta = (4,0)`; the claimed
update would produce positions `[(3,0), (4,0)]`, but `apply()` produces
`[(1,0), (2,0)]`. -/
theorem linkApply_free_mass_split_counterexample :
    (linkApply [mkObj (0, 0) 1 3, mkObj (5, 0) 1 1] ⟨0, 1, 1⟩).map Obj.position
        = [((1 : ℝ), (0 : ℝ)), (2, 0)]
      ∧ (linkApply [mkObj (0, 0) 1 3, mkObj (5, 0) 1 1] ⟨0, 1, 1⟩).map Obj.position
        ≠ [((3 : ℝ), (0 : ℝ)), (4, 0)] := by
  have h25 : Real.sqrt ((5 : ℝ) * 5 + 0 * 0) = 5 := by
    rw [show (5 : ℝ) * 5 + 0 * 0 = 5 ^ 2 by norm_num]
    exact Real.sqrt_sq (by norm_num)
  have hcalc :
      (linkApply [mkObj (0, 0) 1 3, mkObj (5, 0) 1 1] ⟨0, 1, 1⟩).map Obj.position
        = [((1 : ℝ), (0 : ℝ)), (2, 0)] := by
    rw [linkApply_pair_free _ _ _ rfl rfl]
    simp [mkObj, linkDelta, Vec2.sub, Vec2.length, Vec2.scale, Vec2.add]
    norm_num [h25]
  refine ⟨hcalc, ?_⟩
  rw [hcalc]
  norm_num

/-- Witness for the amended claim C1 at concrete endpoints. -/
theorem linkApply_free_mass_split_witness :
    ((mkObj (0, 0) 1 3).frozen = false ∧ (mkObj (5, 0) 1 1).frozen = false ∧
        0 < (mkObj (0, 0) 1 3).mass ∧ 0 < (mkObj (5, 0) 1 1).mass) ∧
      (linkApply [mkObj (0, 0) 1 3, mkObj (5, 0) 1 1] ⟨0, 1, 1⟩ =
        [{ mkObj (0, 0) 1 3 with position := (Vec2.add (mkObj (0, 0) 1 3).position
            (Vec2.scale (linkDelta (mkObj (0, 0) 1 3).position (mkObj (5, 0) 1 1).position 1)
              ((mkObj (5, 0) 1 1).mass / ((mkObj (0, 0) 1 3).mass + (mkObj (5, 0) 1 1).mass)))) },
         { mkObj (5, 0) 1 1 with position := (Vec2.sub (mkObj (5, 0) 1 1).position
            (Vec2.scale (linkDelta (mkObj (0, 0) 1 3).position (mkObj (5, 0) 1 1).position 1)
              ((mkObj (0, 0) 1 3).mass / ((mkObj (0, 0) 1 3).mass + (mkObj (5, 0) 1 1).mass)))) }]
      ∧ ((mkObj (5, 0) 1 1).mass ≤ (mkObj (0, 0) 1 3).mass →
          Vec2.length (Vec2.scale (linkDelta (mkObj (0, 0) 1 3).position (mkObj (5, 0) 1 1).position 1)
              ((mkObj (5, 0) 1 1).mass / ((mkObj (0, 0) 1 3).mass + (mkObj (5, 0) 1 1).mass)))
            ≤ Vec2.length (Vec2.scale (linkDelta (mkObj (0, 0) 1 3).position (mkObj (5, 0) 1 1).position 1)
              ((mkObj (0, 0) 1 3).mass / ((mkObj (0, 0) 1 3).mass + (mkObj (5, 0) 1 1).mass))))) :=
  ⟨⟨rfl, rfl, by norm_num [mkObj], by norm_num [mkObj]⟩,
    linkApply_free_mass_split _ _ _ rfl rfl (by norm_num [mkObj]) (by norm_num [mkObj])⟩

/-- Claim C2: for a link with two free endpoints, `massA = 3 * massB` and
non-coincident positions, one `apply()` call moves A by 1/4 and B by 3/4 of
the correction magnitude `|distance - targetLength|`. -/
theorem linkApply_quarter_split (a b : Obj) (t : ℝ)
    (ha : a.frozen = false) (hb : b.frozen = false)
    (hm : a.mass = 3 * b.mass) (hmb : 0 < b.mass)
    (hne : a.position ≠ b.position) :
    ∃ a' b', linkApply [a, b] ⟨0, 1, t⟩ = [a', b'] ∧
      Vec2.length (Vec2.sub a'.position a.position)
        = 1 / 4 * |Vec2.length (Vec2.sub b.position a.position) - t| ∧
      Vec2.length (Vec2.sub b'.position b.position)
        = 3 / 4 * |Vec2.length (Vec2.sub b.position a.position) - t| := by
  have hmb' : b.mass ≠ 0 := ne_of_gt hmb
  have hfrac : a.mass / (a.mass + b.mass) = 3 / 4 := by
    rw [hm, show 3 * b.mass + b.mass = 4 * b.mass by ring,
      show (3 : ℝ) * b.mass / (4 * b.mass) = 3 / 4 * (b.mass / b.mass) by ring,
      div_self hmb', mul_one]
  refine ⟨_, _, linkApply_pair_free a b t ha hb, ?_, ?_⟩
  · rw [Vec2.sub_add_cancel, Vec2.sub_scale_self, hfrac,
      show (1 : ℝ) - 3 / 4 = 1 / 4 by norm_num,
      Vec2.length_scale, linkDelta_length _ _ _ hne,
      abs_of_pos (show (0 : ℝ) < 1 / 4 by norm_num)]
  · rw [Vec2.sub_sub_cancel, Vec2.length_scale, hfrac, Vec2.length_scale,
      linkDelta_length _ _ _ hne, abs_neg, abs_one, one_mul,
      abs_of_pos (show (0 : ℝ) < 3 / 4 by norm_num)]

/-- Witness for claim C2 at concrete endpoints with masses 3 and 1. -/
theorem linkApply_quarter_split_witness :
    ((mkObj (0, 0) 1 3).frozen = false ∧ (mkObj (5, 0) 1 1).frozen = false ∧
        (mkObj (0, 0) 1 3).mass = 3 * (mkObj (5, 0) 1 1).mass ∧
        0 < (mkObj (5, 0) 1 1).mass ∧
        (mkObj (0, 0) 1 3).position ≠ (mkObj (5, 0) 1 1).position) ∧
      (∃ a' b', linkApply [mkObj (0, 0) 1 3, mkObj (5, 0) 1 1] ⟨0, 1, 2⟩ = [a', b'] ∧
        Vec2.length (Vec2.sub a'.position (mkObj (0, 0) 1 3).position)
          = 1 / 4 * |Vec2.length (Vec2.sub (mkObj (5, 0) 1 1).position
              (mkObj (0, 0) 1 3).position) - 2| ∧
        Vec2.length (Vec2.sub b'.position (mkObj (5, 0) 1 1).position)
          = 3 / 4 * |Vec2.length (Vec2.sub (mkObj (5, 0) 1 1).position
              (mkObj (0, 0) 1 3).position) - 2|) :=
  ⟨⟨rfl, rfl, by norm_num [mkObj], by norm_num [mkObj], by norm_num [mkObj, Prod.ext_iff]⟩,
    linkApply_quarter_split _ _ 2 rfl rfl (by norm_num [mkObj]) (by norm_num [mkObj])
      (by norm_num [mkObj, Prod.ext_iff])⟩

/-- Claim C3 (amended): when both endpoints of a link are anchored, `apply()`
still takes the `a.frozen` branch: A is left entirely unchanged but
`B.position` is overwritten with `B.position - delta` (B only returns to its
anchor at its next `updatePosition`). -/
theorem linkApply_both_anchored (a b : Obj) (t : ℝ)
    (ha : a.frozen = true) (_hb : b.frozen = true) :
    linkApply [a, b] ⟨0, 1, t⟩ =
      [a, { b with position := (Vec2.sub b.position (linkDelta a.position b.position t)) }] :=
  linkApply_pair_afrozen a b t ha

/-- Counterexample to claim C3 as stated: two anchored endpoints at `(0,0)`
and `(5,0)` with target length 3; `apply()` moves the second one to `(3,0)`
instead of leaving it at `(5,0)`. -/
theorem linkApply_both_anchored_counterexample :
    (linkApply [mkFrozen (0, 0) 1 1, mkFrozen (5, 0) 1 1] ⟨0, 1, 3⟩).map Obj.position
        = [((0 : ℝ), (0 : ℝ)), (3, 0)]
      ∧ (linkApply [mkFrozen (0, 0) 1 1, mkFrozen (5, 0) 1 1] ⟨0, 1, 3⟩).map Obj.position
        ≠ [((0 : ℝ), (0 : ℝ)), (5, 0)] := by
  have hcalc :
      (linkApply [mkFrozen (0, 0) 1 1, mkFrozen (5, 0) 1 1] ⟨0, 1, 3⟩).map Obj.position
        = [((0 : ℝ), (0 : ℝ)), (3, 0)] := by
    rw [linkApply_pair_afrozen _ _ _ rfl]
    simp [mkFrozen, linkDelta, Vec2.sub, Vec2.length, Vec2.scale, Vec2.add]
  refine ⟨hcalc, ?_⟩
  rw [hcalc]
  norm_num

/-- Witness for the amended claim C3 at concrete anchored endpoints. -/
theorem linkApply_both_anchored_witness :
    ((mkFrozen (0, 0) 1 1).frozen = true ∧ (mkFrozen (5, 0) 1 1).frozen = true) ∧
      linkApply [mkFrozen (0, 0) 1 1, mkFrozen (5, 0) 1 1] ⟨0, 1, 3⟩ =
        [mkFrozen (0, 0) 1 1,
         { mkFrozen (5, 0) 1 1 with position := (Vec2.sub (mkFrozen (5, 0) 1 1).position
            (linkDelta (mkFrozen (0, 0) 1 1).position (mkFrozen (5, 0) 1 1).position 3)) }] :=
  ⟨⟨rfl, rfl⟩, linkApply_both_anchored _ _ 3 rfl rfl⟩

/-- The guard of `solveCollisions` (source line 281): a pair at distance
exactly zero is skipped, leaving the store untouched. -/
theorem collidePair_coincident (objs : List Obj) (i j : Nat) (a b : Obj)
    (hi : objs[i]? = some a) (hj : objs[j]? = some b)
    (hpos : a.position = b.position) :
    collidePair objs i j = objs := by
  have hzero : Vec2.length (Vec2.sub a.position b.position) = 0 := by
    rw [hpos, Vec2.sub_self]
    simp [Vec2.length]
  simp [collidePair, hi, hj, hzero]

/-- Claim C4: coincident endpoints of a link hit the unguarded division by
zero of `apply()`'s normalization and both free endpoints' positions become
non-finite, while the collision solver's explicit `distance === 0` guard
skips a coincident pair, leaving every object unchanged. -/
theorem zero_distance_hazard (a b : JSObj) (pa1 pa2 t : ℝ)
    (hpa : a.position = (some pa1, some pa2)) (heq : b.position = a.position)
    (ha : a.frozen = false) (hb : b.frozen = false) :
    jsLinkApply a b t = ((none, none), (none, none))
    ∧ ∀ (objs : List Obj) (i j : Nat) (oa ob : Obj),
        objs[i]? = some oa → objs[j]? = some ob → oa.position = ob.position →
        collidePair objs i j = objs := by
  constructor
  · simp [jsLinkApply, heq, hpa, ha, hb, jsVsub, jsSub, jsVlength, jsDiv,
      jsVscale, jsMul, jsAdd, jsVadd]
  · intro objs i j oa ob hi hj hpos
    exact collidePair_coincident objs i j oa ob hi hj hpos

/-- Witness for claim C4 at two concrete coincident free endpoints. -/
theorem zero_distance_hazard_witness :
    ((⟨false, (some 1, some 2), some 9⟩ : JSObj).position = (some 1, some 2) ∧
        (⟨false, (some 1, some 2), some 4⟩ : JSObj).position
          = (⟨false, (some 1, some 2), some 9⟩ : JSObj).position ∧
        (⟨false, (some 1, some 2), some 9⟩ : JSObj).frozen = false ∧
        (⟨false, (some 1, some 2), some 4⟩ : JSObj).frozen = false) ∧
      (jsLinkApply ⟨false, (some 1, some 2), some 9⟩ ⟨false, (some 1, some 2), some 4⟩ 10
          = ((none, none), (none, none))
        ∧ ∀ (objs : List Obj) (i j : Nat) (oa ob : Obj),
            objs[i]? = some oa → objs[j]? = some ob → oa.position = ob.position →
            collidePair objs i j = objs) :=
  ⟨⟨rfl, rfl, rfl, rfl⟩,
    zero_distance_hazard _ _ 1 2 10 rfl rfl rfl rfl⟩

/-! ### Preservation lemmas -/

theorem SameKind.rfl (o : Obj) : SameKind o o := ⟨Eq.refl _, Eq.refl _⟩

theorem SameKind.trans {o o' o'' : Obj} (h1 : SameKind o o') (h2 : SameKind o' o'') :
    SameKind o o'' :=
  ⟨h2.1.trans h1.1, h2.2.trans h1.2⟩

theorem getElem?_lt_length {objs : List Obj} {i : Nat} {o : Obj}
    (h : objs[i]? = some o) : i < objs.length := by
  by_contra hlen
  push_neg at hlen
  rw [List.getElem?_eq_none hlen] at h
  exact Option.noConfusion h

theorem kind_set (objs : List Obj) (i : Nat) (oi x : Obj)
    (hi : objs[i]? = some oi) (hx : SameKind oi x) :
    ∀ (k : Nat) (o : Obj), objs[k]? = some o →
      ∃ o', (objs.set i x)[k]? = some o' ∧ SameKind o o' := by
  intro k o hk
  by_cases hik : i = k
  · subst hik
    refine ⟨x, List.getElem?_set_eq_of_lt x (getElem?_lt_length hi), ?_⟩
    have : o = oi := by
      have := hi.symm.trans hk
      exact (Option.some.injEq _ _ ▸ this).symm ▸ rfl
    rw [this]
    exact hx
  · exact ⟨o, (List.getElem?_set_ne hik).trans hk, SameKind.rfl o⟩

theorem kindPreserving_map (f : Obj → Obj) (h : ∀ o, SameKind o (f o)) :
    KindPreserving (List.map f) := by
  intro objs k o hk
  refine ⟨f o, ?_, h o⟩
  rw [List.getElem?_map f objs k, hk]
  rfl

theorem foldl_kind {α : Type} (g : List Obj → α → List Obj)
    (hg : ∀ x, KindPreserving (fun objs => g objs x)) :
    ∀ (l : List α) (objs : List Obj) (k : Nat) (o : Obj), objs[k]? = some o →
      ∃ o', (l.foldl g objs)[k]? = some o' ∧ SameKind o o' := by
  intro l
  induction l with
  | nil => exact fun objs k o hk => ⟨o, hk, SameKind.rfl o⟩
  | cons x xs ih =>
    intro objs k o hk
    obtain ⟨o', h1, h2⟩ := hg x objs k o hk
    obtain ⟨o'', h3, h4⟩ := ih (g objs x) k o' h1
    exact ⟨o'', by simpa using h3, h2.trans h4⟩

theorem kind_set_pos (objs : List Obj) (i : Nat) (a : Obj) (p : Vec2)
    (hi : objs[i]? = some a) :
    ∀ (k : Nat) (o : Obj), objs[k]? = some o →
      ∃ o', (objs.set i { a with position := p })[k]? = some o' ∧ SameKind o o' :=
  kind_set objs i a { a with position := p } hi ⟨rfl, rfl⟩

theorem kind_modify (objs : List Obj) (j : Nat) (f : Obj → Obj)
    (hf : ∀ o, SameKind o (f o)) :
    ∀ (k : Nat) (o : Obj), objs[k]? = some o →
      ∃ o', (objs.modify f j)[k]? = some o' ∧ SameKind o o' := by
  intro k o hk
  rw [List.getElem?_modify f j objs k, hk]
  by_cases hjk : j = k
  · exact ⟨f o, by simp [hjk], hf o⟩
  · exact ⟨o, by simp [hjk], SameKind.rfl o⟩

theorem kind_modify_over (objs objs1 : List Obj) (j : Nat) (f : Obj → Obj)
    (hf : ∀ o, SameKind o (f o))
    (hpres : ∀ (k : Nat) (o : Obj), objs[k]? = some o →
      ∃ o', objs1[k]? = some o' ∧ SameKind o o') :
    ∀ (k : Nat) (o : Obj), objs[k]? = some o →
      ∃ o', (objs1.modify f j)[k]? = some o' ∧ SameKind o o' := by
  intro k o hk
  obtain ⟨o', h1, h2⟩ := hpres k o hk
  obtain ⟨o'', h3, h4⟩ := kind_modify objs1 j f hf k o' h1
  exact ⟨o'', h3, h2.trans h4⟩

theorem linkApply_kind (lk : Link) : KindPreserving (fun objs => linkApply objs lk) := by
  intro objs k o hk
  unfold linkApply
  rcases ha : objs[lk.a]? with _ | a <;> rcases hb : objs[lk.b]? with _ | b <;>
    simp only [ha, hb]
  · exact ⟨o, hk, SameKind.rfl o⟩
  · exact ⟨o, hk, SameKind.rfl o⟩
  · exact ⟨o, hk, SameKind.rfl o⟩
  by_cases hfa : a.frozen = true
  · rw [if_pos hfa]
    exact kind_set_pos objs lk.b b _ hb k o hk
  by_cases hfb : b.frozen = true
  · rw [if_neg hfa, if_pos hfb]
    exact kind_set_pos objs lk.a a _ ha k o hk
  · rw [if_neg hfa, if_neg hfb]
    apply kind_modify_over objs _ lk.b _ ?hf ?hp k o hk
    case hf => exact fun o1 => ⟨rfl, rfl⟩
    case hp => exact kind_set_pos objs lk.a a _ ha

theorem collidePair_kind (i j : Nat) : KindPreserving (fun objs => collidePair objs i j) := by
  intro objs k o hk
  unfold collidePair
  rcases ha : objs[i]? with _ | a <;> rcases hb : objs[j]? with _ | b <;>
    simp only [ha, hb]
  · exact ⟨o, hk, SameKind.rfl o⟩
  · exact ⟨o, hk, SameKind.rfl o⟩
  · exact ⟨o, hk, SameKind.rfl o⟩
  by_cases hd0 : Vec2.length (Vec2.sub a.position b.position) = 0
  · rw [if_pos hd0]
    exact ⟨o, hk, SameKind.rfl o⟩
  rw [if_neg hd0]
  by_cases hlt : Vec2.length (Vec2.sub a.position b.position) < a.radius + b.radius
  · rw [if_pos hlt]
    by_cases hfa : a.frozen = true
    · rw [if_pos hfa]
      exact kind_set_pos objs j b _ hb k o hk
    by_cases hfb : b.frozen = true
    · rw [if_neg hfa, if_pos hfb]
      exact kind_set_pos objs i a _ ha k o hk
    · rw [if_neg hfa, if_neg hfb]
      apply kind_modify_over objs _ j _ ?hf2 ?hp2 k o hk
      case hf2 => exact fun o1 => ⟨rfl, rfl⟩
      case hp2 => exact kind_set_pos objs i a _ ha
  · rw [if_neg hlt]
    exact ⟨o, hk, SameKind.rfl o⟩

theorem updatePosition_kind (dt : ℝ) (o : Obj) : SameKind o (updatePosition dt o) := by
  unfold updatePosition SameKind
  by_cases h : o.frozen = true
  · rw [if_pos h]
    exact ⟨rfl, rfl⟩
  · rw [if_neg h]
    exact ⟨rfl, rfl⟩

theorem applyGravity_kind (g : Vec2) : KindPreserving (applyGravity g) :=
  kindPreserving_map (accelerate g) (fun _ => ⟨rfl, rfl⟩)

theorem updatePositions_kind (dt : ℝ) : KindPreserving (updatePositions dt) :=
  kindPreserving_map (updatePosition dt) (updatePosition_kind dt)

theorem applyConstraint_kind (c : Vec2) : KindPreserving (applyConstraint c) := by
  apply kindPreserving_map
  intro o
  unfold SameKind
  by_cases h : Vec2.length (Vec2.sub o.position c) > 250 - o.radius
  · rw [if_pos h]
    exact ⟨rfl, rfl⟩
  · rw [if_neg h]
    exact ⟨rfl, rfl⟩

theorem applyLinks_kind (links : List Link) : KindPreserving (applyLinks links) := by
  intro objs k o hk
  exact foldl_kind linkApply linkApply_kind links objs k o hk

theorem solveCollisions_kind : KindPreserving solveCollisions := by
  intro objs k o hk
  unfold solveCollisions
  apply foldl_kind _ ?houter (List.range objs.length) objs k o hk
  case houter =>
    intro i objs2 k2 o2 hk2
    exact foldl_kind (fun acc2 j => collidePair acc2 i j)
      (fun j => collidePair_kind i j) ((List.range objs.length).drop (i + 1)) objs2 k2 o2 hk2

theorem kind_ite (c : Prop) [Decidable c] (f : List Obj → List Obj)
    (hf : KindPreserving f) (l : List Obj) (k : Nat) (o : Obj) (hk : l[k]? = some o) :
    ∃ o', (if c then f l else l)[k]? = some o' ∧ SameKind o o' := by
  by_cases hc : c
  · rw [if_pos hc]
    exact hf l k o hk
  · rw [if_neg hc]
    exact ⟨o, hk, SameKind.rfl o⟩

theorem update_frozen_reset (dt : ℝ) (s : SimState) (k : Nat) (o : Obj)
    (hk : s.objects[k]? = some o) :
    ∃ o', (update dt s).objects[k]? = some o' ∧ SameKind o o' ∧
      (o.frozen = true →
        o'.position = o.originalPosition ∧ o'.oldPosition = o.originalPosition) := by
  obtain ⟨o1, h1, k1⟩ := applyGravity_kind s.gravity s.objects k o hk
  obtain ⟨o2, h2, k2⟩ := kind_ite (s.bounded = true)
    (applyConstraint (s.canvasWidth / 2, s.canvasHeight / 2))
    (applyConstraint_kind _) _ k o1 h1
  obtain ⟨o3, h3, k3⟩ := kind_ite (s.collisions = true)
    solveCollisions solveCollisions_kind _ k o2 h2
  obtain ⟨o4, h4, k4⟩ := applyLinks_kind s.links _ k o3 h3
  have kchain : SameKind o o4 := ((k1.trans k2).trans k3).trans k4
  have hupd : (update dt s).objects[k]? = some (updatePosition dt o4) := by
    show (updatePositions dt _)[k]? = _
    rw [updatePositions, List.getElem?_map, h4]
    rfl
  refine ⟨updatePosition dt o4, hupd, kchain.trans (updatePosition_kind dt o4), ?_⟩
  intro hf
  have hfo4 : o4.frozen = true := kchain.1.trans hf
  have horig : o4.originalPosition = o.originalPosition := kchain.2
  rw [updatePosition, if_pos hfo4]
  exact ⟨horig, horig⟩

/-- Claim C7: an anchored (frozen) particle that starts at its anchor — as
every `FrozenSimObject` does at construction — still sits at its anchor, in
`position` and `oldPosition`, after any sequence of complete `update(dt)`
calls, whatever gravity, containment, collisions or links the scene applies. -/
theorem anchored_invariant (dts : List ℝ) (s : SimState) (k : Nat) (o₀ : Obj)
    (hk : s.objects[k]? = some o₀) (hf : o₀.frozen = true)
    (hp : o₀.position = o₀.originalPosition) (ho : o₀.oldPosition = o₀.originalPosition) :
    ∃ o, (dts.foldl (fun st dt => update dt st) s).objects[k]? = some o ∧
      o.frozen = true ∧ o.position = o₀.originalPosition
      ∧ o.oldPosition = o₀.originalPosition := by
  induction dts generalizing s o₀ with
  | nil => exact ⟨o₀, hk, hf, hp, ho⟩
  | cons dt dts ih =>
    obtain ⟨o1, h1, ks, hreset⟩ := update_frozen_reset dt s k o₀ hk
    obtain ⟨hp1, ho1⟩ := hreset hf
    obtain ⟨o2, h2, hf2, hp2, ho2⟩ := ih (update dt s) o1 h1 (ks.1.trans hf)
      (by rw [hp1, ks.2]) (by rw [ho1, ks.2])
    refine ⟨o2, by simpa using h2, hf2, ?_, ?_⟩
    · rw [hp2, ks.2]
    · rw [ho2, ks.2]

/-- Witness for claim C7: one anchored particle, one update call. -/
theorem anchored_invariant_witness :
    ((⟨SimType.LongPendulum, true, 600, 600, true, none, false, false,
        [mkFrozen (300, 200) 5 25], [], (0, 1000)⟩ : SimState).objects[0]?
          = some (mkFrozen (300, 200) 5 25) ∧
      (mkFrozen (300, 200) 5 25).frozen = true ∧
      (mkFrozen (300, 200) 5 25).position = (mkFrozen (300, 200) 5 25).originalPosition ∧
      (mkFrozen (300, 200) 5 25).oldPosition = (mkFrozen (300, 200) 5 25).originalPosition) ∧
    (∃ o, (([(1 : ℝ) / 100]).foldl (fun st dt => update dt st)
        (⟨SimType.LongPendulum, true, 600, 600, true, none, false, false,
          [mkFrozen (300, 200) 5 25], [], (0, 1000)⟩ : SimState)).objects[0]? = some o ∧
      o.frozen = true ∧ o.position = (mkFrozen (300, 200) 5 25).originalPosition
      ∧ o.oldPosition = (mkFrozen (300, 200) 5 25).originalPosition) :=
  ⟨⟨rfl, rfl, rfl, rfl⟩,
    anchored_invariant [1 / 100] _ 0 _ rfl rfl rfl rfl⟩

/-! ### Object-count preservation -/

theorem linkApply_length (objs : List Obj) (lk : Link) :
    (linkApply objs lk).length = objs.length := by
  unfold linkApply
  rcases ha : objs[lk.a]? with _ | a <;> rcases hb : objs[lk.b]? with _ | b <;>
    simp only [ha, hb]
  split_ifs <;> simp [List.length_set, List.length_modify]

theorem collidePair_length (objs : List Obj) (i j : Nat) :
    (collidePair objs i j).length = objs.length := by
  unfold collidePair
  rcases ha : objs[i]? with _ | a <;> rcases hb : objs[j]? with _ | b <;>
    simp only [ha, hb]
  split_ifs <;> simp [List.length_set, List.length_modify]

theorem foldl_length {α : Type} (g : List Obj → α → List Obj)
    (hg : ∀ (l : List Obj) (x : α), (g l x).length = l.length) :
    ∀ (xs : List α) (l : List Obj), (xs.foldl g l).length = l.length := by
  intro xs
  induction xs with
  | nil => exact fun l => rfl
  | cons x xs ih =>
    intro l
    rw [List.foldl_cons]
    exact (ih (g l x)).trans (hg l x)

theorem applyLinks_length (links : List Link) (objs : List Obj) :
    (applyLinks links objs).length = objs.length :=
  foldl_length linkApply linkApply_length links objs

theorem solveCollisions_length (objs : List Obj) :
    (solveCollisions objs).length = objs.length := by
  unfold solveCollisions
  exact foldl_length _
    (fun l i => foldl_length (fun acc2 j => collidePair acc2 i j)
      (fun l2 j => collidePair_length l2 i j) _ l)
    (List.range objs.length) objs

theorem ite_length (c : Prop) [Decidable c] (f : List Obj → List Obj)
    (hf : ∀ l, (f l).length = l.length) (l : List Obj) :
    (if c then f l else l).length = l.length := by
  by_cases hc : c
  · rw [if_pos hc]
    exact hf l
  · rw [if_neg hc]

theorem update_objects_length (dt : ℝ) (s : SimState) :
    (update dt s).objects.length = s.objects.length := by
  show (updatePositions dt (applyLinks s.links _)).length = _
  rw [updatePositions, List.length_map, applyLinks_length,
    ite_length _ solveCollisions solveCollisions_length,
    ite_length _ (applyConstraint _) (fun l => by rw [applyConstraint, List.length_map]),
    applyGravity, List.length_map]

theorem iterate_update_length (dt : ℝ) (n : Nat) (s : SimState) :
    ((update dt)^[n] s).objects.length = s.objects.length := by
  induction n generalizing s with
  | zero => rfl
  | succ n ih =>
    rw [Function.iterate_succ_apply]
    exact (ih (update dt s)).trans (update_objects_length dt s)

theorem spawnCheck_length (t dt r : ℝ) (s : SimState) (h : s.objects.length ≤ 100) :
    (spawnCheck t dt r s).objects.length ≤ 100 := by
  unfold spawnCheck
  split_ifs with hc
  · have hlt := hc.2.2
    simp only [List.length_append, List.length_cons, List.length_nil]
    omega
  · exact h

theorem updateE_ok (dt : ℝ) (s : SimState) (h : s.hasCtx = true ∨ s.bounded = false) :
    updateE dt s = .ok (update dt s) := by
  rcases h with hc | hb
  · by_cases hb : s.bounded = true
    · simp [updateE, applyConstraintE, update, hb, hc]
    · simp [updateE, applyConstraintE, update, hb]
  · simp [updateE, applyConstraintE, update, hb]

theorem updateE_error (dt : ℝ) (s : SimState) (hb : s.bounded = true)
    (hc : s.hasCtx = false) :
    updateE dt s = .error { s with objects := applyGravity s.gravity s.objects } := by
  simp [updateE, applyConstraintE, hb, hc]

theorem runSubsteps_ok (dt : ℝ) (n : Nat) (s : SimState)
    (h : s.hasCtx = true ∨ s.bounded = false) :
    runSubsteps dt n s = .ok ((update dt)^[n] s) := by
  induction n generalizing s with
  | zero => rfl
  | succ n ih =>
    rw [Function.iterate_succ_apply]
    simp only [runSubsteps, updateE_ok dt s h]
    exact ih (update dt s) h

theorem runSubsteps_error_first (dt : ℝ) (n : Nat) (s : SimState)
    (hb : s.bounded = true) (hc : s.hasCtx = false) (hn : n ≠ 0) :
    runSubsteps dt n s = .error { s with objects := applyGravity s.gravity s.objects } := by
  cases n with
  | zero => exact absurd rfl hn
  | succ m => simp only [runSubsteps, updateE_error dt s hb hc]

theorem runSubsteps_state_length (dt : ℝ) (n : Nat) (s : SimState) :
    (exceptState (runSubsteps dt n s)).objects.length = s.objects.length := by
  induction n generalizing s with
  | zero => rfl
  | succ n ih =>
    by_cases hbc : s.bounded = true ∧ s.hasCtx = false
    · rw [runSubsteps_error_first dt (n + 1) s hbc.1 hbc.2 (Nat.succ_ne_zero n)]
      show (applyGravity s.gravity s.objects).length = s.objects.length
      rw [applyGravity, List.length_map]
    · have h : s.hasCtx = true ∨ s.bounded = false := by
        by_cases hb : s.bounded = true
        · by_cases hc : s.hasCtx = true
          · exact Or.inl hc
          · exact absurd ⟨hb, Bool.eq_false_iff.mpr hc⟩ hbc
        · exact Or.inr (Bool.eq_false_iff.mpr hb)
      simp only [runSubsteps, updateE_ok dt s h]
      exact (ih (update dt s)).trans (update_objects_length dt s)

theorem runSubsteps_state_prevT (dt : ℝ) (n : Nat) (s : SimState) :
    (exceptState (runSubsteps dt n s)).prevT = s.prevT := by
  induction n generalizing s with
  | zero => rfl
  | succ n ih =>
    by_cases hbc : s.bounded = true ∧ s.hasCtx = false
    · rw [runSubsteps_error_first dt (n + 1) s hbc.1 hbc.2 (Nat.succ_ne_zero n)]
      rfl
    · have h : s.hasCtx = true ∨ s.bounded = false := by
        by_cases hb : s.bounded = true
        · by_cases hc : s.hasCtx = true
          · exact Or.inl hc
          · exact absurd ⟨hb, Bool.eq_false_iff.mpr hc⟩ hbc
        · exact Or.inr (Bool.eq_false_iff.mpr hb)
      simp only [runSubsteps, updateE_ok dt s h]
      exact (ih (update dt s)).trans rfl

theorem step_eq_of_error (t r : ℝ) (s s2 : SimState)
    (h : runSubsteps (min (dtWall s.prevT t) (1 / 50) / (substeps : ℝ)) substeps
      { s with prevT := some t } = .error s2) :
    step t r s = .crashed s2 := by
  simp only [step, h]

theorem step_eq_of_ok (t r : ℝ) (s s2 : SimState)
    (h : runSubsteps (min (dtWall s.prevT t) (1 / 50) / (substeps : ℝ)) substeps
      { s with prevT := some t } = .ok s2) :
    step t r s = if s2.hasCtx then .ok (spawnCheck t (dtWall s.prevT t) r s2)
      else .crashed s2 := by
  simp only [step, h]

theorem step_state_length (t r : ℝ) (s : SimState) (h : s.objects.length ≤ 100) :
    (step t r s).state.objects.length ≤ 100 := by
  have hlen := runSubsteps_state_length (min (dtWall s.prevT t) (1 / 50) / (substeps : ℝ))
    substeps { s with prevT := some t }
  rcases hrs : runSubsteps (min (dtWall s.prevT t) (1 / 50) / (substeps : ℝ)) substeps
      { s with prevT := some t } with s2 | s2
  · rw [hrs] at hlen
    rw [step_eq_of_error t r s s2 hrs]
    show s2.objects.length ≤ 100
    exact (show s2.objects.length = s.objects.length from hlen).trans_le h
  · rw [hrs] at hlen
    rw [step_eq_of_ok t r s s2 hrs]
    by_cases hctx2 : s2.hasCtx = true
    · rw [if_pos hctx2]
      show (spawnCheck t (dtWall s.prevT t) r s2).objects.length ≤ 100
      apply spawnCheck_length
      exact (show s2.objects.length = s.objects.length from hlen).trans_le h
    · rw [if_neg hctx2]
      show s2.objects.length ≤ 100
      exact (show s2.objects.length = s.objects.length from hlen).trans_le h

set_option maxRecDepth 10000 in
/-- Claim C9: starting from at most 100 objects — the bounded-objects scenario
starts with none — no sequence of ticks ever pushes the object count past
100: each tick appends at most one object and only when strictly below 100. -/
theorem spawn_cap (c : Option Canvas) (r : ℝ) (ticks : List (ℝ × ℝ)) (s : SimState)
    (h : s.objects.length ≤ 100) :
    (ticks.foldl (fun st tr => (step tr.1 tr.2 st).state)
      (start c r s).state).objects.length ≤ 100 := by
  have hstart : (start c r s).state.objects.length ≤ 100 := by
    cases c with
    | none =>
      simp only [start]
      exact step_state_length 0 r _ h
    | some cv =>
      simp only [start]
      exact step_state_length 0 r _ h
  have hfold : ∀ (ts : List (ℝ × ℝ)) (st : SimState), st.objects.length ≤ 100 →
      (ts.foldl (fun st tr => (step tr.1 tr.2 st).state) st).objects.length ≤ 100 := by
    intro ts
    induction ts with
    | nil => exact fun st hst => hst
    | cons tr ts ih =>
      intro st hst
      rw [List.foldl_cons]
      exact ih _ (step_state_length tr.1 tr.2 st hst)
  exact hfold ticks _ hstart

set_option maxRecDepth 40000 in
/-- Witness for claim C9: the freshly constructed bounded-objects scenario and
one tick. -/
theorem spawn_cap_witness :
    mkBoundedObjects.objects.length ≤ 100 ∧
      (([((16 : ℝ), (12 : ℝ))]).foldl (fun st tr => (step tr.1 tr.2 st).state)
        (start none 0 mkBoundedObjects).state).objects.length ≤ 100 :=
  ⟨by decide, spawn_cap none 0 [(16, 12)] mkBoundedObjects (by decide)⟩

/-! ### Tick-level bookkeeping -/

theorem iterate_update_hasCtx (dt : ℝ) (n : Nat) (s : SimState) :
    ((update dt)^[n] s).hasCtx = s.hasCtx := by
  induction n generalizing s with
  | zero => rfl
  | succ n ih =>
    rw [Function.iterate_succ_apply]
    exact ih (update dt s)

theorem iterate_update_prevT (dt : ℝ) (n : Nat) (s : SimState) :
    ((update dt)^[n] s).prevT = s.prevT := by
  induction n generalizing s with
  | zero => rfl
  | succ n ih =>
    rw [Function.iterate_succ_apply]
    exact ih (update dt s)

theorem spawnCheck_prevT (t dt r : ℝ) (s : SimState) :
    (spawnCheck t dt r s).prevT = s.prevT := by
  unfold spawnCheck
  split_ifs <;> rfl

theorem step_state_prevT (t r : ℝ) (s : SimState) :
    (step t r s).state.prevT = some t := by
  have hpt := runSubsteps_state_prevT (min (dtWall s.prevT t) (1 / 50) / (substeps : ℝ))
    substeps { s with prevT := some t }
  rcases hrs : runSubsteps (min (dtWall s.prevT t) (1 / 50) / (substeps : ℝ)) substeps
      { s with prevT := some t } with s2 | s2
  · rw [hrs] at hpt
    rw [step_eq_of_error t r s s2 hrs]
    show s2.prevT = some t
    exact hpt
  · rw [hrs] at hpt
    rw [step_eq_of_ok t r s s2 hrs]
    by_cases hctx2 : s2.hasCtx = true
    · rw [if_pos hctx2]
      show (spawnCheck t (dtWall s.prevT t) r s2).prevT = some t
      rw [spawnCheck_prevT]
      exact hpt
    · rw [if_neg hctx2]
      show s2.prevT = some t
      exact hpt

/-- Claim C10: `dt = (t - (this.t || t)) / 1000` tests the stored timestamp
for truthiness, so a stored timestamp of 0 — not only an unset one — yields
`dtWall = 0`; since `start()` runs the first tick with sentinel `t = 0` and
stores it, both the first tick and the following one simulate zero elapsed
time. -/
theorem falsy_timestamp_zero_dt (t : ℝ) (c : Option Canvas) (r : ℝ) (s : SimState) :
    dtWall none t = 0 ∧ dtWall (some 0) t = 0 ∧ (start c r s).state.prevT = some 0 := by
  refine ⟨by simp [dtWall, jsOr], by simp [dtWall, jsOr], ?_⟩
  cases c with
  | none =>
    simp only [start]
    exact step_state_prevT 0 r _
  | some cv =>
    simp only [start]
    exact step_state_prevT 0 r _

set_option maxRecDepth 10000 in
/-- Claim C8: a tick whose stored previous timestamp is a truthy `p` computes
`dtWall = (t - p)/1000`, caps it at 1/50 s, divides the capped value by the
fixed 1000 substeps, runs `update(subDt)` exactly 1000 times (then the spawn
check), and the simulated time `1000 * subDt` never exceeds 1/50 s. -/
theorem step_runs_1000_substeps (s : SimState) (t p r : ℝ)
    (hp : s.prevT = some p) (h0 : p ≠ 0) (hctx : s.hasCtx = true) :
    step t r s = .ok (spawnCheck t ((t - p) / 1000) r
        ((update (min ((t - p) / 1000) (1 / 50) / 1000))^[1000] { s with prevT := some t }))
      ∧ (1000 : ℝ) * (min ((t - p) / 1000) (1 / 50) / 1000) ≤ 1 / 50 := by
  have hdt : dtWall s.prevT t = (t - p) / 1000 := by
    simp [dtWall, jsOr, hp, h0]
  have hok : runSubsteps (min (dtWall s.prevT t) (1 / 50) / (substeps : ℝ)) substeps
      { s with prevT := some t }
      = .ok ((update (min (dtWall s.prevT t) (1 / 50) / (substeps : ℝ)))^[substeps]
        { s with prevT := some t }) :=
    runSubsteps_ok _ _ _ (Or.inl hctx)
  constructor
  · rw [step_eq_of_ok t r s _ hok]
    have hc : (((update (min (dtWall s.prevT t) (1 / 50) / (substeps : ℝ)))^[substeps]
        { s with prevT := some t }) : SimState).hasCtx = true := by
      rw [iterate_update_hasCtx]
      exact hctx
    rw [if_pos hc]
    simp only [hdt, substeps, Nat.cast_ofNat]
  · rw [show (1000 : ℝ) * (min ((t - p) / 1000) (1 / 50) / 1000)
        = min ((t - p) / 1000) (1 / 50) by ring]
    exact min_le_right _ _

set_option maxRecDepth 10000 in
/-- Witness for claim C8 at a concrete simulation state with stored
timestamp 1 and tick timestamp 2. -/
theorem step_runs_1000_substeps_witness :
    ((⟨SimType.LongPendulum, true, 600, 600, true, some 1, false, false, [], [],
        (0, 1000)⟩ : SimState).prevT = some 1 ∧ (1 : ℝ) ≠ 0 ∧
      (⟨SimType.LongPendulum, true, 600, 600, true, some 1, false, false, [], [],
        (0, 1000)⟩ : SimState).hasCtx = true) ∧
    (step 2 0 (⟨SimType.LongPendulum, true, 600, 600, true, some 1, false, false, [], [],
        (0, 1000)⟩ : SimState)
        = .ok (spawnCheck 2 (((2 : ℝ) - 1) / 1000) 0
          ((update (min (((2 : ℝ) - 1) / 1000) (1 / 50) / 1000))^[1000]
            { (⟨SimType.LongPendulum, true, 600, 600, true, some 1, false, false, [], [],
              (0, 1000)⟩ : SimState) with prevT := some 2 }))
      ∧ (1000 : ℝ) * (min (((2 : ℝ) - 1) / 1000) (1 / 50) / 1000) ≤ 1 / 50) :=
  ⟨⟨rfl, by norm_num, rfl⟩,
    step_runs_1000_substeps _ 2 1 0 rfl (by norm_num) rfl⟩

/-- Claim C5: `start()` with no drawing surface attached, now or previously,
does not fail fast with a contract violation.  If the scene is `bounded`, the
first substep's `applyConstraint` throws a `TypeError` at `this.canvas.width`
after gravity has already been applied to every object; otherwise the tick
performs the full 1000-substep update loop and only then throws inside
`draw()` on the undefined 2d context.  Either way simulation work executes
before a generic deep crash, and there is no upfront precondition check. -/
theorem start_without_canvas_runs_then_crashes (r : ℝ) (s : SimState)
    (h : s.hasCtx = false) :
    (s.bounded = true →
      start none r s = .crashed
        { s with playing := true, prevT := some 0, objects := (applyGravity s.gravity s.objects) }) ∧
    (s.bounded = false →
      start none r s = .crashed
        ((update (min (dtWall s.prevT 0) (1 / 50) / (substeps : ℝ)))^[substeps]
          { s with playing := true, prevT := some 0 })) := by
  constructor
  · intro hb
    have herr := runSubsteps_error_first
      (min (dtWall ({ s with playing := true } : SimState).prevT 0) (1 / 50) / (substeps : ℝ))
      substeps { { s with playing := true } with prevT := some 0 } hb h (by decide)
    show step 0 r { s with playing := true } = _
    rw [step_eq_of_error 0 r { s with playing := true } _ herr]
  · intro hbf
    have hok := runSubsteps_ok
      (min (dtWall ({ s with playing := true } : SimState).prevT 0) (1 / 50) / (substeps : ℝ))
      substeps { { s with playing := true } with prevT := some 0 } (Or.inr hbf)
    show step 0 r { s with playing := true } = _
    rw [step_eq_of_ok 0 r { s with playing := true } _ hok]
    have hc : ¬ ((update (min (dtWall ({ s with playing := true } : SimState).prevT 0)
          (1 / 50) / (substeps : ℝ)))^[substeps]
        { { s with playing := true } with prevT := some 0 }).hasCtx = true := by
      rw [iterate_update_hasCtx]
      simp [h]
    rw [if_neg hc]

/-- Witness for claim C5: the bounded-objects scenario never received a
canvas, so its first tick crashes inside the first substep's containment
phase, right after gravity. -/
theorem start_without_canvas_runs_then_crashes_witness :
    mkBoundedObjects.hasCtx = false ∧
      ((mkBoundedObjects.bounded = true →
        start none 0 mkBoundedObjects = .crashed
          { mkBoundedObjects with playing := true, prevT := some 0, objects := (applyGravity mkBoundedObjects.gravity mkBoundedObjects.objects) }) ∧
       (mkBoundedObjects.bounded = false →
        start none 0 mkBoundedObjects = .crashed
          ((update (min (dtWall mkBoundedObjects.prevT 0) (1 / 50) / (substeps : ℝ)))^[substeps]
            { mkBoundedObjects with playing := true, prevT := some 0 }))) :=
  ⟨rfl, start_without_canvas_runs_then_crashes 0 mkBoundedObjects rfl⟩

end Verlet
